import Mathlib

/-!
Shallow embedding of the `radiation_monitor` update coordinator
(`custom_components/radiation_monitor/__init__.py`) and of the
configuration-time validation helper
(`custom_components/radiation_monitor/config_flow.py`).

The coordinator's `_async_update_data` is modelled as a pure function over
an explicit environment: a stream `env : ℕ → Attempt` gives, for each
iteration of the retry loop, the outcome of that iteration's network
attempt.  Machine floats are modelled by exact rationals; Python's
`round(x, 3)` is modelled by round-half-to-even at three decimal digits.
-/

namespace RadiationMonitor

/-- Round-half-to-even on an exact rational, as Python's builtin `round`
rounds its argument (ties go to the even integer). -/
def roundHalfEven (q : ℚ) : ℤ :=
  let f : ℤ := ⌊q⌋
  let frac : ℚ := q - f
  if frac < 1/2 then f
  else if 1/2 < frac then f + 1
  else if f % 2 = 0 then f else f + 1

/-- Python `round(q, 3)`: round to three decimal digits, ties to even. -/
def round3 (q : ℚ) : ℚ := (roundHalfEven (q * 1000) : ℚ) / 1000

/-- The dictionary returned by a successful `_async_update_data` call
(and stored by the host as `self.data`).  `status` is `some` only for the
synthetic "no data" placeholder, mirroring the key that is present only in
that dictionary. -/
structure Reading where
  value : ℚ
  raw_value : ℚ
  timestamp : String
  station_code : String
  returned_code : String
  stamp : ℤ
  divisor : ℚ
  status : Option String
deriving DecidableEq, Repr

/-- One element of the decoded JSON array.  `value` is `none` when the
object lacks a `"value"` key (the `KeyError` case); `date` and `code` are
`none` when those optional keys are absent. -/
structure Sample where
  value : Option ℚ
  date : Option String
  code : Option String
deriving DecidableEq, Repr

/-- Outcome of decoding a 200-response body as JSON: `fail` when both the
direct `json.loads` and the latin-1 re-decode attempt raise, `ok` with the
decoded array otherwise. -/
inductive Decoded where
  | fail
  | ok (samples : List Sample)
deriving DecidableEq, Repr

/-- Outcome of one iteration's network attempt, as seen by the retry loop:
a transport failure (`aiohttp.ClientError`), some other exception raised
inside the attempt body, or an HTTP response with its status and (when
read) decoded body. -/
inductive Attempt where
  | clientErr
  | otherErr
  | http (status : ℕ) (body : Decoded)
deriving DecidableEq, Repr

/-- Coordinator state read by `_async_update_data`: the construction-time
fields `station_code`, `station_name`, `stamp`, `divisor`, and the host's
`self.data` slot holding the last successful reading (if any). -/
structure Coordinator where
  station_code : String
  station_name : String
  stamp : ℤ
  divisor : ℚ
  data : Option Reading
deriving DecidableEq, Repr

/-- Payload of an `UpdateFailed` raised inside the attempt body:
`Error fetching data: {status}` (line 145), `Error parsing response`
(line 167), `Invalid data format` (line 214), `Connection error`
(line 223). -/
inductive InnerErr where
  | fetchError (status : ℕ)
  | parseError
  | invalidFormat
  | connectionError
deriving DecidableEq, Repr

/-- An exception reaching the outer `except Exception` handler: either an
`UpdateFailed` raised by the attempt body itself, or a generic exception. -/
inductive PyExc where
  | updateFailed (e : InnerErr)
  | generic
deriving DecidableEq, Repr

/-- What a `_async_update_data` call does, as seen by the caller:
return a reading dictionary, raise
`UpdateFailed("Error communicating with API: {cause}")` from the outer
handler's exhaustion branch (line 236), or fall off the end of the
function and return Python `None`. -/
inductive RefreshResult where
  | ok (r : Reading)
  | raised (cause : PyExc)
  | noneReturn
deriving DecidableEq, Repr

/-- The dictionary assembled at lines 201-209 from the last array element:
`value = round(raw / divisor, 3)`, `raw_value`, `timestamp` from the
sample's `date` with current time as fallback, `returned_code` from the
sample's `code` with `"unknown"` as fallback. -/
def mkReading (c : Coordinator) (v : ℚ) (s : Sample) (now : String) : Reading :=
  { value := round3 (v / c.divisor)
    raw_value := v
    timestamp := s.date.getD now
    station_code := c.station_code
    returned_code := s.code.getD "unknown"
    stamp := c.stamp
    divisor := c.divisor
    status := none }

/-- The placeholder dictionary returned at lines 182-191 when the decoded
body is empty and no prior reading exists. -/
def placeholderReading (c : Coordinator) (now : String) : Reading :=
  { value := 0
    raw_value := 0
    timestamp := now
    station_code := c.station_code
    returned_code := "unknown"
    stamp := c.stamp
    divisor := c.divisor
    status := some "No data available" }

/-- How one execution of the loop body (the outer `try` block, lines
117-226) ends: a `return`, an `aiohttp.ClientError` caught by the inner
handler at line 216, or an exception propagating to the outer handler at
line 228. -/
inductive StepOut where
  | ret (r : Reading)
  | clientError
  | exc (e : PyExc)
deriving DecidableEq, Repr

/-- Straight-line body of one attempt (lines 117-215): status check,
JSON decode, empty check, last-element extraction.  Every `raise` whose
exception escapes the inner `try` is recorded as `exc`, since the inner
handler catches only `aiohttp.ClientError`. -/
def processAttempt (c : Coordinator) (now : String) : Attempt → StepOut
  | .clientErr => .clientError
  | .otherErr => .exc .generic
  | .http status body =>
    if status ≠ 200 then
      match c.data with
      | some r => .ret r
      | none => .exc (.updateFailed (.fetchError status))
    else
      match body with
      | .fail =>
        match c.data with
        | some r => .ret r
        | none => .exc (.updateFailed .parseError)
      | .ok samples =>
        match samples.getLast? with
        | none =>
          match c.data with
          | some r => .ret r
          | none => .ret (placeholderReading c now)
        | some last_entry =>
          match last_entry.value with
          | some v => .ret (mkReading c v last_entry now)
          | none =>
            match c.data with
            | some r => .ret r
            | none => .exc (.updateFailed .invalidFormat)

/-- The `max_retries` constant of `_async_update_data` (line 112). -/
def maxRetries : ℕ := 3

/-- Everything observable about one `_async_update_data` call: its result,
the list of `asyncio.sleep` durations performed (each sleep in the source
is `sleep(2)`), and the number of loop iterations (network attempts)
executed. -/
structure RunOutcome where
  result : RefreshResult
  sleeps : List ℕ
  attempts : ℕ
deriving DecidableEq, Repr

/-- The retry loop of `_async_update_data` (lines 115-241).  `i` is the
iteration index (the iteration consumes `env i`), `rc` is `retry_count`,
`sl` the sleeps performed so far.

Control flow mirrored from the source:
the inner `except aiohttp.ClientError` handler (lines 216-226) increments
`retry_count`, and on exhaustion returns stale data or raises
`UpdateFailed("Connection error")` — a raise that the outer
`except Exception` (line 228) catches in turn; on remaining budget it
sleeps and `continue`s.  The outer handler increments `retry_count`, on
exhaustion returns stale data or raises
`UpdateFailed("Error communicating with API: ...")`, and on remaining
budget sleeps — after which control falls to the `break` at line 241, so
the function returns `None`. -/
def runLoop (c : Coordinator) (now : String) (env : ℕ → Attempt)
    (i rc : ℕ) (sl : List ℕ) : RunOutcome :=
  if _h : rc < maxRetries then
    match processAttempt c now (env i) with
    | .ret r => ⟨.ok r, sl, i + 1⟩
    | .clientError =>
      if _h1 : rc + 1 ≥ maxRetries then
        match c.data with
        | some r => ⟨.ok r, sl, i + 1⟩
        | none =>
          -- `raise UpdateFailed("Connection error")` at line 223 is caught
          -- by the outer handler, which increments `retry_count` again.
          if rc + 1 + 1 ≥ maxRetries then
            match c.data with
            | some r => ⟨.ok r, sl, i + 1⟩
            | none => ⟨.raised (.updateFailed .connectionError), sl, i + 1⟩
          else ⟨.noneReturn, sl ++ [2], i + 1⟩
      else runLoop c now env (i + 1) (rc + 1) (sl ++ [2])
    | .exc e =>
      if rc + 1 ≥ maxRetries then
        match c.data with
        | some r => ⟨.ok r, sl, i + 1⟩
        | none => ⟨.raised e, sl, i + 1⟩
      else
        -- the outer handler has no `continue`: after its sleep, control
        -- reaches the `break` at line 241 and the function returns None.
        ⟨.noneReturn, sl ++ [2], i + 1⟩
  else ⟨.noneReturn, sl, i⟩
termination_by maxRetries - rc
decreasing_by simp only [maxRetries] at *; omega

/-- One `_async_update_data` call: run the retry loop from
`retry_count = 0` with no sleeps performed. -/
def runRefresh (c : Coordinator) (now : String) (env : ℕ → Attempt) : RunOutcome :=
  runLoop c now env 0 0 []

/-- The divisor computed at setup (`__init__.py` line 47):
`divisor = 1001 - stamp`. -/
def divisorOf (stamp : ℤ) : ℤ := 1001 - stamp

/-- Outcome of the single fetch made by `_test_station_code`
(`config_flow.py` lines 70-127): the request raised, or a response with
its status and JSON-decode outcome. -/
inductive TestOutcome where
  | requestError
  | resp (status : ℕ) (body : Decoded)
deriving DecidableEq, Repr

/-- The configuration-time validation helper `_test_station_code`
(`config_flow.py` lines 70-127), modelled on its single fetch outcome.
Every branch of the source returns `True`. -/
def testStationCode : TestOutcome → Bool
  | .requestError => true
  | .resp status body =>
    if status ≠ 200 then true
    else
      match body with
      | .fail => true
      | .ok data =>
        if data ≠ [] ∧ 0 < data.length then true else true

/-- Example reading stored as stale data in the tests below. -/
def exReading : Reading :=
  ⟨1/10, 501/10, "2024-01-01T00:00:00", "ST123", "ST123", 500, 501, none⟩

/-- Example coordinator with no prior reading (`self.data` empty). -/
def exNoData : Coordinator := ⟨"ST123", "Station A", 500, 501, none⟩

/-- Example coordinator holding `exReading` as its prior reading. -/
def exWithData : Coordinator := ⟨"ST123", "Station A", 500, 501, some exReading⟩

/-- Example sample `{value: 10, date: "d1"}`. -/
def exSample1 : Sample := ⟨some 10, some "d1", none⟩

/-- Example sample `{value: 20, date: "d2"}`. -/
def exSample2 : Sample := ⟨some 20, some "d2", none⟩

/-- Example sample lacking the required `value` field. -/
def exNoValueSample : Sample := ⟨none, some "d1", none⟩

/-- Environment: two transport failures, then a 200 response with one
sample. -/
def exRetryEnv : ℕ → Attempt :=
  fun i => if i < 2 then .clientErr else .http 200 (.ok [exSample1])

/-- Environment: every attempt yields the two-sample 200 response of the
spec's worked example. -/
def exC1Env : ℕ → Attempt := fun _ => .http 200 (.ok [exSample1, exSample2])

/-- Unfolding lemma: a loop iteration whose body returns `r` ends the call
with result `r`, no further sleeps, and one more attempt. -/
lemma runLoop_ret {c : Coordinator} {now : String} {env : ℕ → Attempt}
    {i rc : ℕ} {sl : List ℕ} {r : Reading}
    (h : rc < maxRetries) (hp : processAttempt c now (env i) = .ret r) :
    runLoop c now env i rc sl = ⟨.ok r, sl, i + 1⟩ := by
  rw [runLoop]
  simp [h, hp]

/-- Unfolding lemma: a `ClientError` with retry budget remaining sleeps 2
seconds and continues the loop. -/
lemma runLoop_clientError_cont {c : Coordinator} {now : String} {env : ℕ → Attempt}
    {i rc : ℕ} {sl : List ℕ}
    (h : rc + 1 < maxRetries) (hp : processAttempt c now (env i) = .clientError) :
    runLoop c now env i rc sl = runLoop c now env (i + 1) (rc + 1) (sl ++ [2]) := by
  rw [runLoop]
  simp [Nat.lt_of_succ_lt h, hp, Nat.not_le.mpr h]

/-- Unfolding lemma: a `ClientError` exhausting the retry budget returns
the stored stale reading when one exists. -/
lemma runLoop_clientError_exhaust_data {c : Coordinator} {now : String}
    {env : ℕ → Attempt} {i rc : ℕ} {sl : List ℕ} {R : Reading}
    (h : rc < maxRetries) (h1 : rc + 1 ≥ maxRetries)
    (hp : processAttempt c now (env i) = .clientError) (hd : c.data = some R) :
    runLoop c now env i rc sl = ⟨.ok R, sl, i + 1⟩ := by
  rw [runLoop]
  simp [h, h1, hp, hd]

/-- Unfolding lemma: a `ClientError` exhausting the retry budget with no
stored reading raises `UpdateFailed("Connection error")`, which the outer
handler catches and re-raises wrapped as the communication error. -/
lemma runLoop_clientError_exhaust_none {c : Coordinator} {now : String}
    {env : ℕ → Attempt} {i rc : ℕ} {sl : List ℕ}
    (h : rc < maxRetries) (h1 : rc + 1 ≥ maxRetries)
    (hp : processAttempt c now (env i) = .clientError) (hd : c.data = none) :
    runLoop c now env i rc sl =
      ⟨.raised (.updateFailed .connectionError), sl, i + 1⟩ := by
  have h2 : rc + 1 + 1 ≥ maxRetries := Nat.le_succ_of_le h1
  rw [runLoop]
  simp [h, h1, h2, hp, hd]

/-- Unfolding lemma: an exception reaching the outer handler with the
budget exhausted returns the stored stale reading when one exists. -/
lemma runLoop_exc_exhaust_data {c : Coordinator} {now : String}
    {env : ℕ → Attempt} {i rc : ℕ} {sl : List ℕ} {e : PyExc} {R : Reading}
    (h : rc < maxRetries) (h1 : rc + 1 ≥ maxRetries)
    (hp : processAttempt c now (env i) = .exc e) (hd : c.data = some R) :
    runLoop c now env i rc sl = ⟨.ok R, sl, i + 1⟩ := by
  rw [runLoop]
  simp [h, h1, hp, hd]

/-- Unfolding lemma: an exception reaching the outer handler with the
budget exhausted and no stored reading raises the communication error. -/
lemma runLoop_exc_exhaust_none {c : Coordinator} {now : String}
    {env : ℕ → Attempt} {i rc : ℕ} {sl : List ℕ} {e : PyExc}
    (h : rc < maxRetries) (h1 : rc + 1 ≥ maxRetries)
    (hp : processAttempt c now (env i) = .exc e) (hd : c.data = none) :
    runLoop c now env i rc sl = ⟨.raised e, sl, i + 1⟩ := by
  rw [runLoop]
  simp [h, h1, hp, hd]

/-- Unfolding lemma: an exception reaching the outer handler with budget
remaining sleeps 2 seconds and then hits the `break` at line 241, so the
call returns Python `None`. -/
lemma runLoop_exc_break {c : Coordinator} {now : String}
    {env : ℕ → Attempt} {i rc : ℕ} {sl : List ℕ} {e : PyExc}
    (h1 : rc + 1 < maxRetries)
    (hp : processAttempt c now (env i) = .exc e) :
    runLoop c now env i rc sl = ⟨.noneReturn, sl ++ [2], i + 1⟩ := by
  rw [runLoop]
  simp [Nat.lt_of_succ_lt h1, hp, Nat.not_le.mpr h1]

/-- The loop executes at most `maxRetries - rc` further iterations. -/
lemma runLoop_attempts_le (c : Coordinator) (now : String) (env : ℕ → Attempt)
    (i rc : ℕ) (sl : List ℕ) :
    (runLoop c now env i rc sl).attempts ≤ i + (maxRetries - rc) := by
  induction i, rc, sl using runLoop.induct c now env with
  | case1 i rc sl h a hp =>
    rw [runLoop_ret h hp]
    simp only [maxRetries] at *
    omega
  | case2 i rc sl h hp h1 r hd =>
    rw [runLoop_clientError_exhaust_data h h1 hp hd]
    simp only [maxRetries] at *
    omega
  | case3 i rc sl h hp h1 hd h2 r hd2 =>
    rw [hd] at hd2
    simp at hd2
  | case4 i rc sl h hp h1 hd h2 hd2 =>
    rw [runLoop_clientError_exhaust_none h h1 hp hd]
    simp only [maxRetries] at *
    omega
  | case5 i rc sl h hp h1 hd h2 =>
    exfalso
    simp only [maxRetries] at *
    omega
  | case6 i rc sl h hp h1 ih =>
    rw [runLoop_clientError_cont (Nat.lt_of_not_le h1) hp]
    refine le_trans ih ?_
    simp only [maxRetries] at *
    omega
  | case7 i rc sl h a hp h1 r hd =>
    rw [runLoop_exc_exhaust_data h h1 hp hd]
    simp only [maxRetries] at *
    omega
  | case8 i rc sl h a hp h1 hd =>
    rw [runLoop_exc_exhaust_none h h1 hp hd]
    simp only [maxRetries] at *
    omega
  | case9 i rc sl h a hp h1 =>
    rw [runLoop_exc_break (Nat.lt_of_not_le h1) hp]
    simp only [maxRetries] at *
    omega
  | case10 i rc sl h =>
    rw [runLoop]
    simp [h]

/-- With a stored stale reading present, no branch of the loop raises:
every raise site is guarded by an `if self.data` returning the stale
reading first. -/
lemma runLoop_never_raised {c : Coordinator} {now : String} {env : ℕ → Attempt}
    {R : Reading} (hd : c.data = some R) :
    ∀ i rc sl e, (runLoop c now env i rc sl).result ≠ .raised e := by
  intro i rc sl
  induction i, rc, sl using runLoop.induct c now env with
  | case1 i rc sl h a hp => rw [runLoop_ret h hp]; simp
  | case2 i rc sl h hp h1 r hd2 => rw [runLoop_clientError_exhaust_data h h1 hp hd2]; simp
  | case3 i rc sl h hp h1 hd2 h2 r hd3 => rw [hd2] at hd3; simp at hd3
  | case4 i rc sl h hp h1 hd2 h2 hd3 => rw [hd] at hd2; simp at hd2
  | case5 i rc sl h hp h1 hd2 h2 => rw [hd] at hd2; simp at hd2
  | case6 i rc sl h hp h1 ih =>
    rw [runLoop_clientError_cont (Nat.lt_of_not_le h1) hp]
    exact ih
  | case7 i rc sl h a hp h1 r hd2 => rw [runLoop_exc_exhaust_data h h1 hp hd2]; simp
  | case8 i rc sl h a hp h1 hd2 => rw [hd] at hd2; simp at hd2
  | case9 i rc sl h a hp h1 => rw [runLoop_exc_break (Nat.lt_of_not_le h1) hp]; simp
  | case10 i rc sl h => rw [runLoop]; simp [h]

/-- Any reading returned by one attempt body is either the stored stale
reading or a fresh dictionary carrying the coordinator's own `stamp` and
`divisor`. -/
lemma processAttempt_ret_cases {c : Coordinator} {now : String} {a : Attempt}
    {r : Reading} (hp : processAttempt c now a = .ret r) :
    c.data = some r ∨ (r.stamp = c.stamp ∧ r.divisor = c.divisor) := by
  cases a with
  | clientErr => simp [processAttempt] at hp
  | otherErr => simp [processAttempt] at hp
  | http status body =>
    simp only [processAttempt] at hp
    split at hp
    · split at hp
      · rename_i r0 hdata
        cases hp
        exact Or.inl hdata
      · simp at hp
    · split at hp
      · split at hp
        · rename_i r0 hdata
          cases hp
          exact Or.inl hdata
        · simp at hp
      · split at hp
        · split at hp
          · rename_i r0 hdata
            cases hp
            exact Or.inl hdata
          · rename_i hdata
            cases hp
            exact Or.inr (by simp [placeholderReading])
        · split at hp
          · cases hp
            exact Or.inr (by simp [mkReading])
          · split at hp
            · rename_i r0 hdata
              cases hp
              exact Or.inl hdata
            · simp at hp

/-- Any reading returned by a whole loop run is either the stored stale
reading or carries the coordinator's own `stamp` and `divisor`. -/
lemma runLoop_ok_cases {c : Coordinator} {now : String} {env : ℕ → Attempt} :
    ∀ i rc sl r, (runLoop c now env i rc sl).result = .ok r →
      c.data = some r ∨ (r.stamp = c.stamp ∧ r.divisor = c.divisor) := by
  intro i rc sl
  induction i, rc, sl using runLoop.induct c now env with
  | case1 i rc sl h a hp =>
    intro r hr
    rw [runLoop_ret h hp] at hr
    simp at hr
    rw [← hr]
    exact processAttempt_ret_cases hp
  | case2 i rc sl h hp h1 r0 hd =>
    intro r hr
    rw [runLoop_clientError_exhaust_data h h1 hp hd] at hr
    simp at hr
    subst hr
    exact Or.inl hd
  | case3 i rc sl h hp h1 hd h2 r0 hd2 => intro r hr; rw [hd] at hd2; simp at hd2
  | case4 i rc sl h hp h1 hd h2 hd2 =>
    intro r hr
    rw [runLoop_clientError_exhaust_none h h1 hp hd] at hr
    simp at hr
  | case5 i rc sl h hp h1 hd h2 =>
    exfalso
    simp only [maxRetries] at h1 h2
    omega
  | case6 i rc sl h hp h1 ih =>
    intro r hr
    rw [runLoop_clientError_cont (Nat.lt_of_not_le h1) hp] at hr
    exact ih r hr
  | case7 i rc sl h a hp h1 r0 hd =>
    intro r hr
    rw [runLoop_exc_exhaust_data h h1 hp hd] at hr
    simp at hr
    subst hr
    exact Or.inl hd
  | case8 i rc sl h a hp h1 hd =>
    intro r hr
    rw [runLoop_exc_exhaust_none h h1 hp hd] at hr
    simp at hr
  | case9 i rc sl h a hp h1 =>
    intro r hr
    rw [runLoop_exc_break (Nat.lt_of_not_le h1) hp] at hr
    simp at hr
  | case10 i rc sl h =>
    intro r hr
    rw [runLoop] at hr
    simp [h] at hr

/-- C1: a successful refresh on a decoded non-empty array builds the
returned reading from the last element: `raw_value` is that element's
`value` field, `value = round(raw_value / divisor, 3)`, `timestamp` is its
`date` field with the current time as fallback, and `returned_code` its
`code` field with `"unknown"` as fallback. -/
theorem refresh_uses_last_sample (c : Coordinator) (now : String)
    (env : ℕ → Attempt) (samples : List Sample) (last_entry : Sample) (v : ℚ)
    (henv : env 0 = .http 200 (.ok samples))
    (hlast : samples.getLast? = some last_entry)
    (hv : last_entry.value = some v) :
    runRefresh c now env =
      ⟨.ok { value := round3 (v / c.divisor)
             raw_value := v
             timestamp := last_entry.date.getD now
             station_code := c.station_code
             returned_code := last_entry.code.getD "unknown"
             stamp := c.stamp
             divisor := c.divisor
             status := none }, [], 1⟩ := by
  unfold runRefresh
  apply runLoop_ret (by decide)
  simp [processAttempt, henv, hlast, hv, mkReading]

/-- C1 witness: the spec's worked example,
`[{value:10,date:"d1"},{value:20,date:"d2"}]` with `stamp = 500`, yields
`raw_value = 20`, `value = round(20/501, 3) = 0.04`, `timestamp = "d2"`. -/
theorem refresh_uses_last_sample_witness :
    runRefresh exNoData "T" exC1Env =
      ⟨.ok { value := 1/25, raw_value := 20, timestamp := "d2",
             station_code := "ST123", returned_code := "unknown",
             stamp := 500, divisor := 501, status := none }, [], 1⟩ := by
  have h := refresh_uses_last_sample exNoData "T" exC1Env
    [exSample1, exSample2] exSample2 20 rfl rfl rfl
  rw [h]
  norm_num [exNoData, exSample2, round3, roundHalfEven]

/-- C2: once a prior successful reading `R` is stored, a refresh never
raises, and each failure mode — non-2xx status, JSON decode failure,
missing `value` field, empty body, transport-retry exhaustion — returns
`R` itself unchanged. -/
theorem refresh_stale_never_fails (c : Coordinator) (R : Reading)
    (now : String) (hd : c.data = some R) :
    (∀ env e, (runRefresh c now env).result ≠ .raised e) ∧
    (∀ env s b, env 0 = .http s b → s ≠ 200 →
      runRefresh c now env = ⟨.ok R, [], 1⟩) ∧
    (∀ env, env 0 = .http 200 .fail →
      runRefresh c now env = ⟨.ok R, [], 1⟩) ∧
    (∀ env samples last_entry, env 0 = .http 200 (.ok samples) →
      samples.getLast? = some last_entry → last_entry.value = none →
      runRefresh c now env = ⟨.ok R, [], 1⟩) ∧
    (∀ env, env 0 = .http 200 (.ok []) →
      runRefresh c now env = ⟨.ok R, [], 1⟩) ∧
    (∀ env, (∀ i, env i = .clientErr) →
      runRefresh c now env = ⟨.ok R, [2, 2], 3⟩) := by
  refine ⟨?_, ?_, ?_, ?_, ?_, ?_⟩
  · intro env e
    exact runLoop_never_raised hd 0 0 [] e
  · intro env s b henv hs
    unfold runRefresh
    apply runLoop_ret (by decide)
    simp [processAttempt, henv, hs, hd]
  · intro env henv
    unfold runRefresh
    apply runLoop_ret (by decide)
    simp [processAttempt, henv, hd]
  · intro env samples last_entry henv hlast hv
    unfold runRefresh
    apply runLoop_ret (by decide)
    simp [processAttempt, henv, hlast, hv, hd]
  · intro env henv
    unfold runRefresh
    apply runLoop_ret (by decide)
    simp [processAttempt, henv, hd]
  · intro env hcl
    unfold runRefresh
    rw [runLoop_clientError_cont (by decide) (by rw [hcl 0]; rfl)]
    rw [runLoop_clientError_cont (by decide) (by rw [hcl 1]; rfl)]
    rw [runLoop_clientError_exhaust_data (by decide) (by decide)
      (by rw [hcl 2]; rfl) hd]
    rfl

/-- C2 witness: with the stale reading `exReading` stored, an HTTP 500
response returns it unchanged. -/
theorem refresh_stale_never_fails_witness :
    runRefresh exWithData "T" (fun _ => .http 500 .fail) =
      ⟨.ok exReading, [], 1⟩ := by
  exact (refresh_stale_never_fails exWithData exReading "T" rfl).2.1
    _ 500 .fail rfl (by decide)

/-- C3: the retry loop performs at most `max_retries = 3` attempts; two
transport failures followed by a success yield the third attempt's reading
after exactly two 2-second waits; three consecutive transport failures
with no prior reading raise the surfaced communication error. -/
theorem refresh_retry_policy (c : Coordinator) (now : String)
    (env : ℕ → Attempt) :
    (runRefresh c now env).attempts ≤ maxRetries ∧
    (∀ samples last_entry v,
      env 0 = .clientErr → env 1 = .clientErr →
      env 2 = .http 200 (.ok samples) →
      samples.getLast? = some last_entry → last_entry.value = some v →
      runRefresh c now env = ⟨.ok (mkReading c v last_entry now), [2, 2], 3⟩) ∧
    (c.data = none → (∀ i, env i = .clientErr) →
      runRefresh c now env =
        ⟨.raised (.updateFailed .connectionError), [2, 2], 3⟩) := by
  refine ⟨?_, ?_, ?_⟩
  · have h := runLoop_attempts_le c now env 0 0 []
    simpa [runRefresh] using h
  · intro samples last_entry v h0 h1 h2 hlast hv
    have hp2 : processAttempt c now (env 2) = .ret (mkReading c v last_entry now) := by
      rw [h2]; simp [processAttempt, hlast, hv]
    unfold runRefresh
    rw [runLoop_clientError_cont (by decide) (by rw [h0]; rfl)]
    rw [runLoop_clientError_cont (by decide) (by rw [h1]; rfl)]
    rw [runLoop_ret (by decide) hp2]
    rfl
  · intro hd hcl
    unfold runRefresh
    rw [runLoop_clientError_cont (by decide) (by rw [hcl 0]; rfl)]
    rw [runLoop_clientError_cont (by decide) (by rw [hcl 1]; rfl)]
    rw [runLoop_clientError_exhaust_none (by decide) (by decide)
      (by rw [hcl 2]; rfl) hd]
    rfl

/-- C3 witness: two transport failures then a success return the third
attempt's reading with exactly two waits. -/
theorem refresh_retry_policy_witness :
    runRefresh exNoData "T" exRetryEnv =
      ⟨.ok (mkReading exNoData 10 exSample1 "T"), [2, 2], 3⟩ := by
  exact (refresh_retry_policy exNoData "T" exRetryEnv).2.1
    [exSample1] exSample1 10 rfl rfl rfl rfl rfl

/-- C4 evaluation at the failing input: an HTTP 500 response with no prior
reading does not raise the fetch error — the `UpdateFailed` raised at line
145 is caught by the outer `except Exception`, a retry slot is consumed,
the handler sleeps 2 seconds, and the `break` at line 241 makes the call
return Python `None`. -/
theorem refresh_http_error_no_prior_returns_none :
    runRefresh exNoData "T" (fun _ => .http 500 .fail) =
      ⟨.noneReturn, [2], 1⟩ := by
  simp [runRefresh, runLoop, processAttempt, exNoData, maxRetries]

/-- C5: an empty decoded array with no prior reading returns (successfully)
the placeholder reading with `value = 0`, `raw_value = 0`,
`timestamp = now`, `status = "No data available"` and the configured
`station_code`, `stamp` and `divisor`. -/
theorem refresh_empty_data_placeholder (c : Coordinator) (now : String)
    (env : ℕ → Attempt) (hd : c.data = none)
    (henv : env 0 = .http 200 (.ok [])) :
    runRefresh c now env =
      ⟨.ok { value := 0, raw_value := 0, timestamp := now,
             station_code := c.station_code, returned_code := "unknown",
             stamp := c.stamp, divisor := c.divisor,
             status := some "No data available" }, [], 1⟩ := by
  unfold runRefresh
  apply runLoop_ret (by decide)
  simp [processAttempt, henv, hd, placeholderReading]

/-- C5 witness: the placeholder evaluated at a concrete coordinator. -/
theorem refresh_empty_data_placeholder_witness :
    runRefresh exNoData "T" (fun _ => .http 200 (.ok [])) =
      ⟨.ok { value := 0, raw_value := 0, timestamp := "T",
             station_code := "ST123", returned_code := "unknown",
             stamp := 500, divisor := 501,
             status := some "No data available" }, [], 1⟩ := by
  have h := refresh_empty_data_placeholder exNoData "T"
    (fun _ => .http 200 (.ok [])) rfl rfl
  rw [h]
  simp [exNoData]

/-- C6 evaluation: a last sample missing the `value` field falls back to
the stored reading with no retry and no wait when one exists; with no
prior reading the `UpdateFailed("Invalid data format")` raised at line 214
is caught by the outer handler, which consumes a retry slot, sleeps 2
seconds, and then the `break` at line 241 makes the call return `None`
instead of failing immediately. -/
theorem refresh_missing_value_behavior :
    runRefresh exNoData "T" (fun _ => .http 200 (.ok [exNoValueSample])) =
      ⟨.noneReturn, [2], 1⟩ ∧
    runRefresh exWithData "T" (fun _ => .http 200 (.ok [exNoValueSample])) =
      ⟨.ok exReading, [], 1⟩ := by
  constructor <;>
    simp [runRefresh, runLoop, processAttempt, exNoData, exWithData,
      exNoValueSample, maxRetries]

/-- C7: every stamp drawn by `random.randint(20, 999)` lies in [20, 999],
the setup computes `divisor = 1001 - stamp ∈ [2, 981]`, and every reading
a refresh can return carries the coordinator's own construction-time
`stamp` and `divisor` (given that any stored stale reading already does). -/
theorem stamp_divisor_invariant (stamp : ℤ) (h1 : 20 ≤ stamp)
    (h2 : stamp ≤ 999) :
    divisorOf stamp = 1001 - stamp ∧
    2 ≤ divisorOf stamp ∧ divisorOf stamp ≤ 981 ∧
    ∀ (c : Coordinator) (now : String) (env : ℕ → Attempt) (r : Reading),
      c.stamp = stamp → c.divisor = (divisorOf stamp : ℚ) →
      (∀ r0, c.data = some r0 →
        r0.stamp = stamp ∧ r0.divisor = (divisorOf stamp : ℚ)) →
      (runRefresh c now env).result = .ok r →
      r.stamp = stamp ∧ r.divisor = (divisorOf stamp : ℚ) := by
  refine ⟨rfl, ?_, ?_, ?_⟩
  · unfold divisorOf; omega
  · unfold divisorOf; omega
  · intro c now env r hcs hcd hdata hok
    rcases runLoop_ok_cases 0 0 [] r hok with hstale | ⟨hs, hdv⟩
    · exact hdata r hstale
    · exact ⟨by rw [hs, hcs], by rw [hdv, hcd]⟩

/-- C7 witness: the invariant instantiated at `stamp = 500`. -/
theorem stamp_divisor_invariant_witness :
    (20 ≤ (500 : ℤ)) ∧ (500 : ℤ) ≤ 999 ∧
    2 ≤ divisorOf 500 ∧ divisorOf 500 ≤ 981 := by
  have h := stamp_divisor_invariant 500 (by decide) (by decide)
  exact ⟨by decide, by decide, h.2.1, h.2.2.1⟩

/-- C8: the configuration-time validator accepts the station code for
every possible outcome of its single fetch — request exception, non-2xx
status, JSON parse failure, empty array, or non-empty data. -/
theorem test_station_code_always_accepts (o : TestOutcome) :
    testStationCode o = true := by
  cases o with
  | requestError => rfl
  | resp status body =>
    cases body with
    | fail => simp [testStationCode]
    | ok data => simp [testStationCode]

/-- C9: every HTTP status other than exactly 200 takes the
stale-fallback/fetch-error branch at line 140, independently of the
response body, which is therefore never decoded as JSON. -/
theorem non_200_status_skips_body (c : Coordinator) (now : String)
    (s : ℕ) (b : Decoded) (hs : s ≠ 200) :
    processAttempt c now (.http s b) =
      (match c.data with
       | some r => .ret r
       | none => .exc (.updateFailed (.fetchError s))) := by
  simp [processAttempt, hs]

/-- C9 witness: a 201 response with a decodable non-empty body still
returns the stale reading, ignoring the body. -/
theorem non_200_status_skips_body_witness :
    processAttempt exWithData "T" (.http 201 (.ok [exSample2])) =
      .ret exReading := by
  have h := non_200_status_skips_body exWithData "T" 201 (.ok [exSample2])
    (by decide)
  simpa [exWithData] using h

/-- C10: every refresh executes at most 3 loop iterations, but the claim
that every path returns a reading or raises is violated: a generic
exception on the first attempt makes the handler sleep and then hit the
`break` at line 241, so the call returns Python `None`. -/
theorem refresh_bounded_attempts_and_none_path :
    (∀ (c : Coordinator) (now : String) (env : ℕ → Attempt),
      (runRefresh c now env).attempts ≤ maxRetries) ∧
    runRefresh exNoData "T" (fun _ => .otherErr) = ⟨.noneReturn, [2], 1⟩ := by
  constructor
  · intro c now env
    have h := runLoop_attempts_le c now env 0 0 []
    simpa [runRefresh] using h
  · simp [runRefresh, runLoop, processAttempt, exNoData, maxRetries]

end RadiationMonitor
